import Mathlib

/-!
Verification of the amvault-connect popup protocol client, session store and
EIP-1193 method adapter.  Definitions are shallow embeddings of the
TypeScript source:

* `src/popup/amvaultProvider.ts`  — `base64url`, `requestPopup` (the exchange
  state machine with its two listeners, deadline timer and one-shot
  settlement flag), `signMessage`, `sendTransaction`;
* `src/eip1193/AmvaultEIP1193Provider.ts` — `_loadSession`, the
  `eth_requestAccounts` verification pipeline, `personal_sign` / `eth_sign`
  gating, `wallet_switchEthereumChain` / `wallet_addEthereumChain` dispatch
  and the free-text failure classifiers.

JavaScript strings are `String`, numbers are `Nat`/`Int`, `undefined`/`null`
are `Option`, and a JSON value that only ever flows through
`JSON.stringify`/`JSON.parse` unchanged is represented by its parsed shape
(or by `garbage` when `JSON.parse` would throw).
-/

namespace Amvault

/-! ## JavaScript helpers -/

/-- JS `a || b` for an optional string: `undefined`, `null` and the empty
string are falsy. -/
def jsOr (o : Option String) (dflt : String) : String :=
  match o with
  | some s => if s = "" then dflt else s
  | none => dflt

/-- JS `a ?? b` (nullish coalescing) keeps an empty string. -/
def jsNullish (o : Option String) (dflt : String) : String :=
  o.getD dflt

/-- JS truthiness of an optional string. -/
def optTruthy (o : Option String) : Bool :=
  match o with
  | some s => s ≠ ""
  | none => false

/-- `String.prototype.toLowerCase()`, restricted to ASCII case-folding
(faithful for the hex addresses and identifiers it is applied to). -/
def jsToLower (s : String) : String :=
  String.mk (s.toList.map Char.toLower)

/-- Case-insensitive-ready infix search on character lists. -/
def listHasInfix (pat : List Char) : List Char → Bool
  | [] => pat.isEmpty
  | c :: rest => pat.isPrefixOf (c :: rest) || listHasInfix pat rest

/-- `pat` occurs as a substring of `s` (used to model `RegExp.test` with an
alternation of literal words). -/
def hasSubstr (s pat : String) : Bool :=
  listHasInfix pat.toList s.toList

/-! ## base64url (src/popup/amvaultProvider.ts, `base64url`)

`btoa(unescape(encodeURIComponent(JSON.stringify(json))))` is standard
base64 over the UTF-8 bytes of the serialized JSON text; the payload is
modelled by that serialized text. -/

def base64Alphabet : List Char :=
  "ABCDEFGHIJKLMNOPQRSTUVWXYZabcdefghijklmnopqrstuvwxyz0123456789+/".toList

def b64c (n : Nat) : Char := base64Alphabet.getD n 'A'

/-- Standard base64 of a byte list (3-byte groups to 4 characters, with
`=` padding on the final partial group), as computed by `btoa`. -/
def base64Chunks : List Nat → List Char
  | [] => []
  | [a] => [b64c (a / 4), b64c (a % 4 * 16), '=', '=']
  | [a, b] => [b64c (a / 4), b64c (a % 4 * 16 + b / 16), b64c (b % 16 * 4), '=']
  | a :: b :: c :: rest =>
    b64c (a / 4) :: b64c (a % 4 * 16 + b / 16) :: b64c (b % 16 * 4 + c / 64) ::
      b64c (c % 64) :: base64Chunks rest

def utf8Bytes (s : String) : List Nat :=
  s.toUTF8.toList.map (fun b => b.toNat)

/-- `.replace(/\+/g,'-')` then `.replace(/\//g,'_')`. -/
def urlSafeChar (c : Char) : Char :=
  if c = '+' then '-' else if c = '/' then '_' else c

/-- `.replace(/=+$/,'')`: strip the trailing run of `=`. -/
def stripTrailingEq (l : List Char) : List Char :=
  (l.reverse.dropWhile (fun c => c = '=')).reverse

/-- `base64url` from src/popup/amvaultProvider.ts: standard base64 of the
UTF-8 bytes, `+`/`/` replaced by `-`/`_`, padding stripped. -/
def base64url (s : String) : String :=
  String.mk (stripTrailingEq ((base64Chunks (utf8Bytes s)).map urlSafeChar))

/-! ## The popup request (src/popup/amvaultProvider.ts, `requestPopup`) -/

inductive Method
  | signin
  | sign_message
  | eth_sendTransaction
deriving DecidableEq, Repr

/-- The literal method string sent before transport translation. -/
def methodTag : Method → String
  | .signin => "signin"
  | .sign_message => "sign_message"
  | .eth_sendTransaction => "eth_sendTransaction"

/-- `const amvaultMethod = method === 'sign_message' ? 'signin' : method`. -/
def transportMethod (m : Method) : String :=
  if m = .sign_message then "signin" else methodTag m

structure PopupRequest where
  method : Method
  app : String
  chainId : Nat
  origin : String
  nonce : String
  /-- `JSON.stringify(payload)` of the optional payload, when present. -/
  payload : Option String
deriving DecidableEq, Repr

/-- The query parameters set on the navigation target, in source order. -/
def buildNavParams (r : PopupRequest) : List (String × String) :=
  [("method", transportMethod r.method),
   ("app", r.app),
   ("chainId", toString r.chainId),
   ("origin", r.origin),
   ("nonce", r.nonce),
   ("redirect", "postmessage")] ++
  (match r.payload with
   | some p => [("payload", base64url p)]
   | none => [])

/-! ## Exchange state machine

`requestPopup` registers a `message` listener and a `storage` listener and
arms a deadline timer; `finishOk`/`finishErr` are gated by the `settled`
flag and both run `cleanup` (clear timer, remove both listeners, close the
shared popup).  Events are fed to whichever handlers are still registered. -/

/-- The parsed shape of a delivered payload (`ev.data`, or `JSON.parse` of a
storage value). -/
structure MsgData where
  type : String
  error : Option String
deriving DecidableEq, Repr

/-- A storage event's `newValue`: either text that parses as JSON or text on
which `JSON.parse` throws. -/
inductive StorageRaw
  | json (d : MsgData)
  | garbage
deriving DecidableEq, Repr

inductive XEvent
  | msg (origin : String) (source : Nat) (data : Option MsgData)
  | storage (key : Option String) (newValue : Option StorageRaw)
  | timerFire
deriving DecidableEq, Repr

def STORAGE_FALLBACK_KEYS : List String := ["amid:lastResult", "amvault:payload"]

structure ExchangeCfg where
  method : Method
  /-- `url.origin` of the navigation target. -/
  amvaultOrigin : String
  /-- The exact popup window reference returned by `preOpenAmvaultPopup`. -/
  popupRef : Nat
deriving DecidableEq, Repr

/-- How the exchange promise was settled: `resolve(data)` or
`reject(new Error(e))`. -/
inductive XResult
  | ok (d : MsgData)
  | err (e : String)
deriving DecidableEq, Repr

structure ExchangeState where
  settled : Bool
  msgListenerOn : Bool
  storageListenerOn : Bool
  timerOn : Bool
  popupReleased : Bool
  result : Option XResult
deriving DecidableEq, Repr

/-- State right after the listeners are registered and the timer armed. -/
def initExchange : ExchangeState :=
  { settled := false, msgListenerOn := true, storageListenerOn := true,
    timerOn := true, popupReleased := false, result := none }

/-- `finishOk`: gated by `settled`; on first call runs `cleanup` and
resolves. -/
def finishOk (s : ExchangeState) (d : MsgData) : ExchangeState :=
  if s.settled then s
  else
    { settled := true, msgListenerOn := false, storageListenerOn := false,
      timerOn := false, popupReleased := true, result := some (.ok d) }

/-- `finishErr`: gated by `settled`; on first call runs `cleanup` and
rejects. -/
def finishErr (s : ExchangeState) (e : String) : ExchangeState :=
  if s.settled then s
  else
    { settled := true, msgListenerOn := false, storageListenerOn := false,
      timerOn := false, popupReleased := true, result := some (.err e) }

/-- The type dispatch both listeners perform on a delivered payload (the
source repeats this cascade verbatim in `onMsg` and `onStorage`):
authentication replies satisfy both `signin` and `sign_message`,
transaction replies satisfy `eth_sendTransaction`, and an error reply
fails the exchange regardless of method. -/
def deliverData (cfg : ExchangeCfg) (s : ExchangeState) (d : MsgData) : ExchangeState :=
  if (cfg.method = .signin ∨ cfg.method = .sign_message) ∧ d.type = "amvault:auth" then
    finishOk s d
  else if cfg.method = .eth_sendTransaction ∧ d.type = "amvault:tx" then
    finishOk s d
  else if d.type = "amvault:error" then
    finishErr s (jsOr d.error "Request rejected")
  else s

/-- The `message` listener `onMsg`. -/
def onMsg (cfg : ExchangeCfg) (s : ExchangeState)
    (origin : String) (source : Nat) (data : Option MsgData) : ExchangeState :=
  if cfg.amvaultOrigin ≠ "" ∧ origin ≠ cfg.amvaultOrigin then s
  else if source ≠ cfg.popupRef then s
  else
    match data with
    | none => s
    | some d => deliverData cfg s d

/-- The `storage` listener `onStorage`; unparseable entries are silently
ignored. -/
def onStorage (cfg : ExchangeCfg) (s : ExchangeState)
    (key : Option String) (newValue : Option StorageRaw) : ExchangeState :=
  match key with
  | none => s
  | some k =>
    if ¬ (k ∈ STORAGE_FALLBACK_KEYS) then s
    else
      match newValue with
      | none => s
      | some .garbage => s
      | some (.json d) => deliverData cfg s d

/-- The deadline timer callback. -/
def onTimer (s : ExchangeState) : ExchangeState :=
  finishErr s "Timed out waiting for AmVault"

/-- One event delivery: a handler runs only while its registration (or the
timer) is still active. -/
def stepExchange (cfg : ExchangeCfg) (s : ExchangeState) : XEvent → ExchangeState
  | .msg o src d => if s.msgListenerOn then onMsg cfg s o src d else s
  | .storage k v => if s.storageListenerOn then onStorage cfg s k v else s
  | .timerFire => if s.timerOn then onTimer s else s

def runExchange (cfg : ExchangeCfg) (s : ExchangeState) (evs : List XEvent) : ExchangeState :=
  evs.foldl (stepExchange cfg) s

/-- All teardown actions of `cleanup` have happened. -/
def cleanedUp (s : ExchangeState) : Prop :=
  s.msgListenerOn = false ∧ s.storageListenerOn = false ∧
  s.timerOn = false ∧ s.popupReleased = true

instance (s : ExchangeState) : Decidable (cleanedUp s) := by
  unfold cleanedUp; infer_instance

/-- Settlement invariant: once `settled` is set, the teardown has run. -/
def ExchangeInv (s : ExchangeState) : Prop :=
  s.settled = true → cleanedUp s

theorem stepExchange_msg (cfg : ExchangeCfg) (s : ExchangeState) (o : String)
    (src : Nat) (d : Option MsgData) :
    stepExchange cfg s (.msg o src d) =
      if s.msgListenerOn then onMsg cfg s o src d else s := rfl

theorem stepExchange_storage (cfg : ExchangeCfg) (s : ExchangeState)
    (k : Option String) (v : Option StorageRaw) :
    stepExchange cfg s (.storage k v) =
      if s.storageListenerOn then onStorage cfg s k v else s := rfl

theorem stepExchange_timer (cfg : ExchangeCfg) (s : ExchangeState) :
    stepExchange cfg s .timerFire = if s.timerOn then onTimer s else s := rfl

theorem finishOk_inv (s : ExchangeState) (d : MsgData) (h : ExchangeInv s) :
    ExchangeInv (finishOk s d) := by
  unfold finishOk
  by_cases hs : s.settled = true
  · simpa [hs] using h
  · simp only [Bool.not_eq_true] at hs
    simp [hs, ExchangeInv, cleanedUp]

theorem finishErr_inv (s : ExchangeState) (e : String) (h : ExchangeInv s) :
    ExchangeInv (finishErr s e) := by
  unfold finishErr
  by_cases hs : s.settled = true
  · simpa [hs] using h
  · simp only [Bool.not_eq_true] at hs
    simp [hs, ExchangeInv, cleanedUp]

theorem deliverData_inv (cfg : ExchangeCfg) (s : ExchangeState) (d : MsgData)
    (h : ExchangeInv s) : ExchangeInv (deliverData cfg s d) := by
  unfold deliverData
  split_ifs <;> first
    | exact h
    | exact finishOk_inv _ _ h
    | exact finishErr_inv _ _ h

theorem onMsg_inv (cfg : ExchangeCfg) (s : ExchangeState) (o : String) (src : Nat)
    (d : Option MsgData) (h : ExchangeInv s) : ExchangeInv (onMsg cfg s o src d) := by
  cases d with
  | none =>
    have he : onMsg cfg s o src none = s := by
      unfold onMsg; split_ifs <;> rfl
    rw [he]; exact h
  | some x =>
    have he : onMsg cfg s o src (some x) =
        if cfg.amvaultOrigin ≠ "" ∧ o ≠ cfg.amvaultOrigin then s
        else if src ≠ cfg.popupRef then s
        else deliverData cfg s x := rfl
    rw [he]
    split_ifs <;> first
      | exact h
      | exact deliverData_inv cfg s x h

theorem onStorage_inv (cfg : ExchangeCfg) (s : ExchangeState) (k : Option String)
    (v : Option StorageRaw) (h : ExchangeInv s) : ExchangeInv (onStorage cfg s k v) := by
  cases k with
  | none => exact h
  | some key =>
    cases v with
    | none =>
      have he : onStorage cfg s (some key) none =
          if ¬ (key ∈ STORAGE_FALLBACK_KEYS) then s else s := rfl
      rw [he]; split_ifs <;> exact h
    | some raw =>
      cases raw with
      | garbage =>
        have he : onStorage cfg s (some key) (some .garbage) =
            if ¬ (key ∈ STORAGE_FALLBACK_KEYS) then s else s := rfl
        rw [he]; split_ifs <;> exact h
      | json d =>
        have he : onStorage cfg s (some key) (some (.json d)) =
            if ¬ (key ∈ STORAGE_FALLBACK_KEYS) then s else deliverData cfg s d := rfl
        rw [he]
        split_ifs <;> first
          | exact h
          | exact deliverData_inv cfg s d h

theorem onTimer_inv (s : ExchangeState) (h : ExchangeInv s) : ExchangeInv (onTimer s) :=
  finishErr_inv _ _ h

theorem stepExchange_inv (cfg : ExchangeCfg) (s : ExchangeState) (e : XEvent)
    (h : ExchangeInv s) : ExchangeInv (stepExchange cfg s e) := by
  cases e with
  | msg o src d =>
    rw [stepExchange_msg]
    split_ifs
    · exact onMsg_inv cfg s o src d h
    · exact h
  | storage k v =>
    rw [stepExchange_storage]
    split_ifs
    · exact onStorage_inv cfg s k v h
    · exact h
  | timerFire =>
    rw [stepExchange_timer]
    split_ifs
    · exact onTimer_inv s h
    · exact h

theorem runExchange_inv (cfg : ExchangeCfg) (evs : List XEvent) :
    ∀ s : ExchangeState, ExchangeInv s → ExchangeInv (runExchange cfg s evs) := by
  induction evs with
  | nil => intro s h; exact h
  | cons e rest ih =>
    intro s h
    exact ih (stepExchange cfg s e) (stepExchange_inv cfg s e h)

/-- Once torn down, no event changes the state: the removed listeners and
the cleared timer never run again. -/
theorem stepExchange_frozen (cfg : ExchangeCfg) (s : ExchangeState) (e : XEvent)
    (h : cleanedUp s) : stepExchange cfg s e = s := by
  obtain ⟨h1, h2, h3, _⟩ := h
  cases e with
  | msg o src d => rw [stepExchange_msg, h1]; rfl
  | storage k v => rw [stepExchange_storage, h2]; rfl
  | timerFire => rw [stepExchange_timer, h3]; rfl

theorem runExchange_frozen (cfg : ExchangeCfg) (evs : List XEvent) :
    ∀ s : ExchangeState, cleanedUp s → runExchange cfg s evs = s := by
  induction evs with
  | nil => intro s _; rfl
  | cons e rest ih =>
    intro s h
    show runExchange cfg (stepExchange cfg s e) rest = s
    rw [stepExchange_frozen cfg s e h]
    exact ih s h

theorem initExchange_inv : ExchangeInv initExchange := by
  intro h
  simp [initExchange] at h

/-! ## signMessage (src/popup/amvaultProvider.ts, `signMessage`)

After `openSignMessage` resolves, the helper inspects `ok` and
`signature` only (`if (!resp?.ok) throw …; if (!resp.signature) throw …`);
the reply's nonce is never read. -/

structure SignMessageResp where
  ok : Bool
  error : Option String
  signature : Option String
  /-- The nonce echoed on the wire reply (carried but never inspected by
  `signMessage`). -/
  nonce : Option String
deriving DecidableEq, Repr

/-- Outcome of `signMessage` once the popup exchange has delivered `resp`. -/
def signMessageResult (resp : SignMessageResp) : Except String String :=
  if ¬ resp.ok then .error (jsOr resp.error "Sign rejected")
  else if ¬ optTruthy resp.signature then .error "No signature returned from AmVault"
  else .ok (resp.signature.getD "")

/-! ## sendTransaction (src/popup/amvaultProvider.ts, `sendTransaction`)

After `requestPopup` resolves, the helper inspects `ok` and `txHash` only
(`if (!resp.ok) throw …; if (!resp.txHash) throw …`); the reply's nonce is
never read. -/

structure SendTxResp where
  ok : Bool
  error : Option String
  txHash : Option String
  /-- The nonce echoed on the wire reply (carried but never inspected by
  `sendTransaction`). -/
  nonce : Option String
deriving DecidableEq, Repr

/-- Outcome of `sendTransaction` once the popup exchange has delivered
`resp`. -/
def sendTransactionResult (resp : SendTxResp) : Except String String :=
  if ¬ resp.ok then .error (jsOr resp.error "Transaction rejected")
  else if ¬ optTruthy resp.txHash then .error "No txHash returned from AmVault"
  else .ok (resp.txHash.getD "")

/-! ## Session store (src/eip1193/AmvaultEIP1193Provider.ts)

`_loadSession` / `_saveSession` / `_clearSession` over the single
localStorage slot `<prefix>:session`.  The stored text is modelled by its
parse result: `json s` when `JSON.parse` yields a session record,
`garbage` when it throws. -/

structure Session where
  ain : String
  address : String
  issuedAt : Nat
  expiresAt : Nat
deriving DecidableEq, Repr

inductive StoredRecord
  | json (s : Session)
  | garbage
deriving DecidableEq, Repr

/-- `_loadSession`, returning the result together with the storage slot
after the call.  An expired record (`Date.now() >= s.expiresAt`) is removed
and `null` returned; text on which `JSON.parse` throws hits the `catch`
branch, which returns `null` without touching storage. -/
def loadSession (raw : Option StoredRecord) (now : Nat) :
    Option Session × Option StoredRecord :=
  match raw with
  | none => (none, none)
  | some .garbage => (none, some .garbage)
  | some (.json s) =>
    if now ≥ s.expiresAt then (none, none) else (some s, some (.json s))

/-- `_saveSession`: unconditional overwrite. -/
def saveSession (s : Session) : Option StoredRecord := some (.json s)

/-- `_clearSession`. -/
def clearSession : Option StoredRecord := none

/-! ## EIP-1193 adapter (src/eip1193/AmvaultEIP1193Provider.ts) -/

def USER_REJECTED : Int := 4001
def UNAUTHORIZED : Int := 4100
def UNSUPPORTED_METHOD : Int := 4200
def DISCONNECTED : Int := 4900
def CHAIN_DISCONNECTED : Int := 4901
def INTERNAL : Int := -32603

structure RpcErr where
  message : String
  code : Int
deriving DecidableEq, Repr

structure ProviderConfig where
  appName : String
  chainId : Nat
  sessionTtlMs : Option Nat
  /-- `config.registry?.getAin`: `none` result covers both a missing/empty
  answer and a thrown (swallowed) exception. -/
  registry : Option (String → Option String)

/-- `accountsChanged` / `connect` notifications emitted by the adapter. -/
inductive Emit
  | accountsChanged (accounts : List String)
  | connect (chainIdHex : String)
deriving DecidableEq, Repr

def natToHex (n : Nat) : String := String.mk (Nat.toDigits 16 n)

/-- The sign-in reply (`SigninResp`) as read by `eth_requestAccounts`
verification: `resp.chainId` is modelled after the `Number(...)` coercion. -/
structure AuthResp where
  ok : Bool
  error : Option String
  address : String
  signature : String
  message : Option String
  nonce : Option String
  chainId : Int
  ain : Option String
  amid : Option String
deriving DecidableEq, Repr

/-- `const toVerify = typeof resp.message === 'string' && resp.message.trim()
? resp.message : msg`: prefer the echoed message when it is a non-blank
string, else fall back to the message originally sent. -/
def pickVerifyMessage (sentMsg : String) (resp : AuthResp) : String :=
  match resp.message with
  | some m => if m.trim ≠ "" then m else sentMsg
  | none => sentMsg

inductive VerifyOutcome
  | sigFail
  | nonceFail
  | chainFail
  | verified
deriving DecidableEq, Repr

/-- The three verification checks of `eth_requestAccounts`, in source
order: address recovery (case-insensitive compare), then nonce, then chain
id.  `recover` abstracts ethers' `verifyMessage`. -/
def verifyAuthResp (recover : String → String → String)
    (sentMsg sentNonce : String) (cfgChainId : Nat) (resp : AuthResp) : VerifyOutcome :=
  let recovered := jsToLower (recover (pickVerifyMessage sentMsg resp) resp.signature)
  if recovered ≠ jsToLower resp.address then .sigFail
  else if resp.nonce ≠ some sentNonce then .nonceFail
  else if resp.chainId ≠ (cfgChainId : Int) then .chainFail
  else .verified

/-- `resp.address.slice(2, 8)`. -/
def addrSlice (a : String) : String := String.mk ((a.toList.drop 2).take 6)

/-- AIN resolution: trimmed `resp.ain`, else trimmed `resp.amid`, else the
registry lookup (truthy results only), else `ain-` plus six address
characters. -/
def resolveAin (cfg : ProviderConfig) (resp : AuthResp) : String :=
  let a0 : String :=
    match resp.ain with
    | some a => if a.trim ≠ "" then a.trim else ""
    | none => ""
  let a1 : String :=
    if a0 = "" then
      match resp.amid with
      | some a => if a.trim ≠ "" then a.trim else ""
      | none => ""
    else a0
  let a2 : String :=
    if a1 = "" then
      match cfg.registry with
      | some reg =>
        match reg resp.address with
        | some g => if g ≠ "" then g else ""
        | none => ""
      | none => ""
    else a1
  if a2 = "" then "ain-" ++ addrSlice resp.address else a2

/-- The `eth_requestAccounts` continuation once `openSignin` has resolved
with `resp` (lines 152-201): `ok` gate, the three verification checks with
their specific errors, then AIN resolution, session persistence and the
`accountsChanged` / `connect` notifications.  Returns the call outcome,
the session storage slot after the call, and the emitted notifications. -/
def requestAccountsAfterReply (cfg : ProviderConfig) (recover : String → String → String)
    (sentMsg sentNonce : String) (resp : AuthResp) (store : Option StoredRecord)
    (now : Nat) : Except RpcErr (List String) × Option StoredRecord × List Emit :=
  if ¬ resp.ok then
    (.error ⟨jsNullish resp.error "Sign-in rejected", USER_REJECTED⟩, store, [])
  else
    match verifyAuthResp recover sentMsg sentNonce cfg.chainId resp with
    | .sigFail => (.error ⟨"Signature verification failed", INTERNAL⟩, store, [])
    | .nonceFail => (.error ⟨"Nonce mismatch", INTERNAL⟩, store, [])
    | .chainFail =>
      (.error ⟨"Wrong network: got " ++ toString resp.chainId ++ ", expected " ++
        toString cfg.chainId, CHAIN_DISCONNECTED⟩, store, [])
    | .verified =>
      let ain := resolveAin cfg resp
      let ttl := cfg.sessionTtlMs.getD 86400000
      let session : Session :=
        { ain := ain, address := resp.address, issuedAt := now, expiresAt := now + ttl }
      (.ok [jsToLower resp.address],
       saveSession session,
       [.accountsChanged [jsToLower resp.address],
        .connect ("0x" ++ natToHex cfg.chainId)])

/-- `/reject|cancel|blocked/i.test(m)` (the `eth_requestAccounts` catch). -/
def matchesRejectCancelBlocked (m : String) : Bool :=
  hasSubstr (jsToLower m) "reject" || hasSubstr (jsToLower m) "cancel" ||
    hasSubstr (jsToLower m) "blocked"

/-- `/reject|cancel/i.test(m)` (the sign / transaction catches). -/
def matchesRejectCancel (m : String) : Bool :=
  hasSubstr (jsToLower m) "reject" || hasSubstr (jsToLower m) "cancel"

/-- Failure classification in the `eth_requestAccounts` catch block. -/
def classifyConnectFailure (m : String) : RpcErr :=
  if matchesRejectCancelBlocked m then ⟨"User rejected the request", USER_REJECTED⟩
  else ⟨m, INTERNAL⟩

/-- Failure classification in the `personal_sign` / `eth_sign` /
`eth_sendTransaction` catch blocks. -/
def classifySignFailure (m : String) : RpcErr :=
  if matchesRejectCancel m then ⟨"User rejected the request", USER_REJECTED⟩
  else ⟨m, INTERNAL⟩

/-! ## personal_sign / eth_sign -/

def hexDigitVal (c : Char) : Option Nat :=
  if '0' ≤ c ∧ c ≤ '9' then some (c.toNat - '0'.toNat)
  else if 'a' ≤ c ∧ c ≤ 'f' then some (c.toNat - 'a'.toNat + 10)
  else if 'A' ≤ c ∧ c ≤ 'F' then some (c.toNat - 'A'.toNat + 10)
  else none

/-- `parseInt(b, 16)` of a 1-2 character chunk, coerced through
`Uint8Array` (`NaN` becomes 0, parsing stops at the first bad digit). -/
def hexChunkByte : List Char → Nat
  | [c] => (hexDigitVal c).getD 0
  | [c1, c2] =>
    match hexDigitVal c1 with
    | none => 0
    | some d1 =>
      match hexDigitVal c2 with
      | none => d1
      | some d2 => 16 * d1 + d2
  | _ => 0

/-- `hex.match(/.{1,2}/g)`: split into chunks of two (final chunk may be a
single character). -/
def hexPairs : List Char → List (List Char)
  | [] => []
  | [c] => [[c]]
  | c1 :: c2 :: rest => [c1, c2] :: hexPairs rest

/-- `_decodeMessage`: decode a `0x`-prefixed UTF-8 hex message to text,
otherwise return it unchanged.  An empty hex body makes `.match` return
`null` and the non-null assertion throw, which the `catch` turns into the
raw input.  `TextDecoder` never throws (it substitutes U+FFFD); byte
sequences that are not valid UTF-8 are approximated by returning the raw
input. -/
def decodeMessage (raw : String) : String :=
  if raw.startsWith "0x" then
    let hex := (raw.toList.drop 2)
    if hex.isEmpty then raw
    else
      let bytes := (hexPairs hex).map hexChunkByte
      match String.fromUTF8? (ByteArray.mk ((bytes.map UInt8.ofNat).toArray)) with
      | some s => s
      | none => raw
  else raw

/-- What a popup-mediated signing call hands to the ProtocolClient when it
does start an exchange. -/
structure SignStart where
  chainId : Nat
  message : String
deriving DecidableEq, Repr

/-- The `personal_sign` branch: session gate, then parameter-order
normalisation (`[addr, msg]` is detected by a 42-character `0x` first
parameter followed by a string), then hex decoding, then the exchange.
Parameters that are not strings are modelled as `none` (their `String(…)`
coercion is irrelevant to the session gate).  The returned `Bool` records
whether a popup exchange was started. -/
def personalSignHandler (cfg : ProviderConfig) (store : Option StoredRecord)
    (now : Nat) (p0 p1 : Option String) :
    Except RpcErr SignStart × Option StoredRecord × Bool :=
  match loadSession store now with
  | (none, store1) =>
    (.error ⟨"Not connected. Call eth_requestAccounts first.", UNAUTHORIZED⟩, store1, false)
  | (some _, store1) =>
    let rawMsg : String :=
      match p0, p1 with
      | some a, some b =>
        if a.startsWith "0x" ∧ a.length = 42 then b else a
      | some a, none => a
      | none, _ => "undefined"
    (.ok { chainId := cfg.chainId, message := decodeMessage rawMsg }, store1, true)

/-- The `eth_sign` branch: session gate, then `params = [address, message]`
with the message hex-decoded, then the exchange. -/
def ethSignHandler (cfg : ProviderConfig) (store : Option StoredRecord)
    (now : Nat) (p1 : Option String) :
    Except RpcErr SignStart × Option StoredRecord × Bool :=
  match loadSession store now with
  | (none, store1) =>
    (.error ⟨"Not connected. Call eth_requestAccounts first.", UNAUTHORIZED⟩, store1, false)
  | (some _, store1) =>
    (.ok { chainId := cfg.chainId, message := decodeMessage (p1.getD "undefined") },
     store1, true)

/-! ## wallet_switchEthereumChain / wallet_addEthereumChain -/

/-- Longest hex-digit prefix value; `none` when there is no digit (`NaN`). -/
def parseHexDigits (cs : List Char) : Option Nat :=
  let ds := (cs.takeWhile (fun c => (hexDigitVal c).isSome)).map
    (fun c => (hexDigitVal c).getD 0)
  if ds.isEmpty then none else some (ds.foldl (fun acc d => 16 * acc + d) 0)

/-- `parseInt(s, 16)`: skip leading whitespace, optional sign, optional
`0x`/`0X` prefix, then the longest hex-digit run; `none` models `NaN`. -/
def parseIntHex (s : String) : Option Int :=
  let cs := s.toList.dropWhile (fun c => c.isWhitespace)
  match cs with
  | '-' :: rest =>
    (parseHexDigits (stripHexPrefix rest)).map (fun n => -(n : Int))
  | '+' :: rest =>
    (parseHexDigits (stripHexPrefix rest)).map (fun n => (n : Int))
  | rest =>
    (parseHexDigits (stripHexPrefix rest)).map (fun n => (n : Int))
where
  stripHexPrefix : List Char → List Char
    | '0' :: 'x' :: rest => rest
    | '0' :: 'X' :: rest => rest
    | l => l

/-- `wallet_switchEthereumChain`: `parseInt(requested?.chainId ?? '0', 16)`
compared to the configured chain id; equal → `null` success, otherwise a
`CHAIN_DISCONNECTED` rejection.  Neither branch touches the session store
or emits a notification. -/
def switchChainHandler (cfg : ProviderConfig) (param : Option String)
    (store : Option StoredRecord) :
    Except RpcErr Unit × Option StoredRecord × List Emit :=
  let requestedId := parseIntHex (jsNullish param "0")
  if requestedId ≠ some (cfg.chainId : Int) then
    (.error ⟨"AmVault only supports chainId " ++ toString cfg.chainId,
      CHAIN_DISCONNECTED⟩, store, [])
  else (.ok (), store, [])

/-- `wallet_addEthereumChain`: same comparison, rejection code
`UNSUPPORTED_METHOD`. -/
def addChainHandler (cfg : ProviderConfig) (param : Option String)
    (store : Option StoredRecord) :
    Except RpcErr Unit × Option StoredRecord × List Emit :=
  let requestedId := parseIntHex (jsNullish param "0")
  if requestedId ≠ some (cfg.chainId : Int) then
    (.error ⟨"AmVault only supports chainId " ++ toString cfg.chainId,
      UNSUPPORTED_METHOD⟩, store, [])
  else (.ok (), store, [])

/-! ## Claims -/

/-- C1: For every exchange run by the protocol client, settlement is
exactly-once: whichever of the three producers (message listener, storage
listener, deadline timer) fires first wins, gated by the single `settled`
flag; once the exchange is settled both listeners are removed, the timer is
cleared, the popup resource is released, and every later delivery on either
channel and every later timer firing is a no-op (the state, including the
settled result, never changes again). -/
theorem C1_settlement_exactly_once (cfg : ExchangeCfg) (evs evs' : List XEvent)
    (h : (runExchange cfg initExchange evs).settled = true) :
    cleanedUp (runExchange cfg initExchange evs) ∧
    runExchange cfg (runExchange cfg initExchange evs) evs' =
      runExchange cfg initExchange evs := by
  have hinv := runExchange_inv cfg evs initExchange initExchange_inv
  have hc := hinv h
  exact ⟨hc, runExchange_frozen cfg evs' _ hc⟩

/-- C1 witness: a race where both channels deliver a valid auth reply; the
exchange settles, the teardown has run, and a further storage delivery and
the timer firing change nothing. -/
theorem C1_settlement_exactly_once_witness :
    cleanedUp (runExchange ⟨.signin, "https://amvault.example", 7⟩ initExchange
      [.msg "https://amvault.example" 7 (some ⟨"amvault:auth", none⟩),
       .storage (some "amvault:payload") (some (.json ⟨"amvault:auth", none⟩))]) ∧
    runExchange ⟨.signin, "https://amvault.example", 7⟩
      (runExchange ⟨.signin, "https://amvault.example", 7⟩ initExchange
        [.msg "https://amvault.example" 7 (some ⟨"amvault:auth", none⟩),
         .storage (some "amvault:payload") (some (.json ⟨"amvault:auth", none⟩))])
      [.storage (some "amid:lastResult") (some (.json ⟨"amvault:auth", none⟩)),
       .timerFire] =
    runExchange ⟨.signin, "https://amvault.example", 7⟩ initExchange
      [.msg "https://amvault.example" 7 (some ⟨"amvault:auth", none⟩),
       .storage (some "amvault:payload") (some (.json ⟨"amvault:auth", none⟩))] :=
  C1_settlement_exactly_once ⟨.signin, "https://amvault.example", 7⟩
    [.msg "https://amvault.example" 7 (some ⟨"amvault:auth", none⟩),
     .storage (some "amvault:payload") (some (.json ⟨"amvault:auth", none⟩))]
    [.storage (some "amid:lastResult") (some (.json ⟨"amvault:auth", none⟩)),
     .timerFire]
    (by decide)

/-- C5: a cross-window message whose origin differs from the signer
application's origin (the navigation target's origin, which is non-empty)
or whose source is not the exact popup window reference is ignored: it
leaves the exchange state — in particular settlement — unchanged. -/
theorem C5_foreign_message_ignored (cfg : ExchangeCfg) (s : ExchangeState)
    (o : String) (src : Nat) (d : Option MsgData)
    (horig : cfg.amvaultOrigin ≠ "")
    (h : o ≠ cfg.amvaultOrigin ∨ src ≠ cfg.popupRef) :
    stepExchange cfg s (.msg o src d) = s := by
  rw [stepExchange_msg]
  split_ifs with hl
  · cases d with
    | none =>
      unfold onMsg
      split_ifs <;> rfl
    | some x =>
      unfold onMsg
      split_ifs with h1 h2
      · rfl
      · rfl
      · exfalso
        push_neg at h1
        rcases h with h | h
        · exact h (h1 horig)
        · exact h2 h
  · rfl

/-- C5 witness: with a settled-nothing fresh exchange, a valid-looking auth
payload from the wrong origin, and one from the right origin but wrong
window, are both ignored. -/
theorem C5_foreign_message_ignored_witness :
    stepExchange ⟨.signin, "https://amvault.example", 7⟩ initExchange
      (.msg "https://evil.example" 7 (some ⟨"amvault:auth", none⟩)) = initExchange ∧
    stepExchange ⟨.signin, "https://amvault.example", 7⟩ initExchange
      (.msg "https://amvault.example" 8 (some ⟨"amvault:auth", none⟩)) = initExchange :=
  ⟨C5_foreign_message_ignored ⟨.signin, "https://amvault.example", 7⟩ initExchange
      "https://evil.example" 7 (some ⟨"amvault:auth", none⟩) (by decide)
      (Or.inl (by decide)),
   C5_foreign_message_ignored ⟨.signin, "https://amvault.example", 7⟩ initExchange
      "https://amvault.example" 8 (some ⟨"amvault:auth", none⟩) (by decide)
      (Or.inr (by decide))⟩

theorem verifyAuthResp_eq (recover : String → String → String)
    (sentMsg sentNonce : String) (cid : Nat) (resp : AuthResp) :
    verifyAuthResp recover sentMsg sentNonce cid resp =
      if jsToLower (recover (pickVerifyMessage sentMsg resp) resp.signature) ≠
          jsToLower resp.address then .sigFail
      else if resp.nonce ≠ some sentNonce then .nonceFail
      else if resp.chainId ≠ (cid : Int) then .chainFail
      else .verified := rfl

/-- Complete characterisation of the three checks, in source order. -/
theorem verifyAuthResp_classify (recover : String → String → String)
    (sentMsg sentNonce : String) (cid : Nat) (resp : AuthResp) :
    (verifyAuthResp recover sentMsg sentNonce cid resp = .sigFail ↔
      jsToLower (recover (pickVerifyMessage sentMsg resp) resp.signature) ≠
        jsToLower resp.address) ∧
    (verifyAuthResp recover sentMsg sentNonce cid resp = .nonceFail ↔
      jsToLower (recover (pickVerifyMessage sentMsg resp) resp.signature) =
        jsToLower resp.address ∧ resp.nonce ≠ some sentNonce) ∧
    (verifyAuthResp recover sentMsg sentNonce cid resp = .chainFail ↔
      jsToLower (recover (pickVerifyMessage sentMsg resp) resp.signature) =
        jsToLower resp.address ∧ resp.nonce = some sentNonce ∧
        resp.chainId ≠ (cid : Int)) ∧
    (verifyAuthResp recover sentMsg sentNonce cid resp = .verified ↔
      jsToLower (recover (pickVerifyMessage sentMsg resp) resp.signature) =
        jsToLower resp.address ∧ resp.nonce = some sentNonce ∧
        resp.chainId = (cid : Int)) := by
  rw [verifyAuthResp_eq]
  by_cases hs : jsToLower (recover (pickVerifyMessage sentMsg resp) resp.signature) =
      jsToLower resp.address
  · rw [if_neg (by simp [hs])]
    by_cases hn : resp.nonce = some sentNonce
    · rw [if_neg (by simp [hn])]
      by_cases hc : resp.chainId = (cid : Int)
      · rw [if_neg (by simp [hc])]
        simp [hs, hn, hc]
      · rw [if_pos (by simp [hc])]
        simp [hs, hn, hc]
    · rw [if_pos (by simp [hn])]
      simp [hs, hn]
  · rw [if_pos (by simp [hs])]
    simp [hs]

theorem verifyAuthResp_nonceFail_iff (recover : String → String → String)
    (sentMsg sentNonce : String) (cid : Nat) (resp : AuthResp) :
    verifyAuthResp recover sentMsg sentNonce cid resp = .nonceFail ↔
      jsToLower (recover (pickVerifyMessage sentMsg resp) resp.signature) =
        jsToLower resp.address ∧ resp.nonce ≠ some sentNonce :=
  (verifyAuthResp_classify recover sentMsg sentNonce cid resp).2.1

/-- C2 counterexample: the claim quantifies over sign-message requests as
well, but `signMessage` never checks the reply nonce: a successful reply
whose echoed nonce "bbbb" differs from the request's nonce "aaaa" still
returns the signature instead of a nonce failure. -/
theorem C2_counterexample :
    signMessageResult
      { ok := true, error := none, signature := some "0xsig", nonce := some "bbbb" } =
      .ok "0xsig" ∧
    (some "bbbb" : Option String) ≠ some "aaaa" :=
  ⟨rfl, by decide⟩

/-- C2 (amended): only the sign-in flow (`eth_requestAccounts`) checks the
reply nonce: there the nonce compared is exactly the request's nonce, and —
once the signature check passes — a reply whose echoed nonce differs always
fails with the nonce reason; `signMessage` and `sendTransaction` ignore the
reply's nonce entirely: their outcomes are invariant under changing that
field. -/
theorem C2_amended_nonce_checking :
    (∀ (recover : String → String → String) (sentMsg sentNonce : String)
      (cid : Nat) (resp : AuthResp),
      jsToLower (recover (pickVerifyMessage sentMsg resp) resp.signature) =
        jsToLower resp.address →
      resp.nonce ≠ some sentNonce →
      verifyAuthResp recover sentMsg sentNonce cid resp = .nonceFail) ∧
    (∀ (resp : SignMessageResp) (n : Option String),
      signMessageResult { resp with nonce := n } = signMessageResult resp) ∧
    (∀ (resp : SendTxResp) (n : Option String),
      sendTransactionResult { resp with nonce := n } = sendTransactionResult resp) := by
  refine ⟨?_, ?_, ?_⟩
  · intro recover sentMsg sentNonce cid resp hsig hnonce
    exact (verifyAuthResp_nonceFail_iff recover sentMsg sentNonce cid resp).mpr
      ⟨hsig, hnonce⟩
  · intro resp n
    cases resp
    rfl
  · intro resp n
    cases resp
    rfl

/-- C2 amended witness: concrete instances of all three parts. -/
theorem C2_amended_nonce_checking_witness :
    verifyAuthResp (fun _ _ => "0xAB") "m" "aaaa" 1
      { ok := true, error := none, address := "0xab", signature := "s",
        message := some "m", nonce := some "bbbb", chainId := 1,
        ain := none, amid := none } = .nonceFail ∧
    signMessageResult
      { ok := true, error := none, signature := some "0xsig", nonce := some "zz" } =
    signMessageResult
      { ok := true, error := none, signature := some "0xsig", nonce := some "bbbb" } ∧
    sendTransactionResult
      { ok := true, error := none, txHash := some "0xhash", nonce := some "zz" } =
    sendTransactionResult
      { ok := true, error := none, txHash := some "0xhash", nonce := some "bbbb" } :=
  ⟨C2_amended_nonce_checking.1 (fun _ _ => "0xAB") "m" "aaaa" 1
      { ok := true, error := none, address := "0xab", signature := "s",
        message := some "m", nonce := some "bbbb", chainId := 1,
        ain := none, amid := none } (by decide) (by decide),
   C2_amended_nonce_checking.2.1
      { ok := true, error := none, signature := some "0xsig", nonce := some "bbbb" }
      (some "zz"),
   C2_amended_nonce_checking.2.2
      { ok := true, error := none, txHash := some "0xhash", nonce := some "bbbb" }
      (some "zz")⟩

/-- C4 counterexample: an unparseable stored record is NOT evicted by
`load()`: the load returns none but the record is still in storage. -/
theorem C4_counterexample :
    loadSession (some .garbage) 0 = (none, some .garbage) ∧
    (some StoredRecord.garbage : Option StoredRecord) ≠ none :=
  ⟨rfl, by decide⟩

/-- C4 (amended): `load()` returns none whenever the stored record is
expired (current time not strictly before expires-at) or unparseable, and a
returned session is always unexpired; but eviction happens only for expired
records: an expired session is removed by the act of loading it, while an
unparseable record is left in storage. -/
theorem C4_amended_load_eviction (raw : Option StoredRecord) (now : Nat) :
    (∀ s : Session, raw = some (.json s) → now ≥ s.expiresAt →
      loadSession raw now = (none, none)) ∧
    (loadSession (some .garbage) now = (none, some .garbage)) ∧
    (∀ s : Session, (loadSession raw now).1 = some s → now < s.expiresAt) := by
  refine ⟨?_, rfl, ?_⟩
  · intro s hraw hexp
    subst hraw
    have he : loadSession (some (.json s)) now =
        if now ≥ s.expiresAt then (none, none)
        else (some s, some (.json s)) := rfl
    rw [he, if_pos hexp]
  · intro s hres
    cases raw with
    | none => simp [loadSession] at hres
    | some r =>
      cases r with
      | garbage => simp [loadSession] at hres
      | json s0 =>
        have he : loadSession (some (.json s0)) now =
            if now ≥ s0.expiresAt then (none, none)
            else (some s0, some (.json s0)) := rfl
        rw [he] at hres
        split_ifs at hres with h
        · simp at hres
          rw [← hres]
          omega

/-- C4 amended witness: an expired record (now = expiry) is evicted and not
returned; a live record is returned. -/
theorem C4_amended_load_eviction_witness :
    loadSession (some (.json ⟨"a", "0xA", 0, 10⟩)) 10 = (none, none) ∧
    10 < 11 :=
  ⟨(C4_amended_load_eviction (some (.json ⟨"a", "0xA", 0, 10⟩)) 10).1
      ⟨"a", "0xA", 0, 10⟩ rfl (by decide),
   by decide⟩

/-- C7: every `personal_sign` and `eth_sign` call made without a valid
existing session fails with the Unauthorized code (4100) and starts no
popup exchange (the exchange-started flag of the handler is false). -/
theorem C7_sign_requires_session (cfg : ProviderConfig) (store : Option StoredRecord)
    (now : Nat) (p0 p1 : Option String)
    (h : (loadSession store now).1 = none) :
    personalSignHandler cfg store now p0 p1 =
      (.error ⟨"Not connected. Call eth_requestAccounts first.", UNAUTHORIZED⟩,
       (loadSession store now).2, false) ∧
    ethSignHandler cfg store now p1 =
      (.error ⟨"Not connected. Call eth_requestAccounts first.", UNAUTHORIZED⟩,
       (loadSession store now).2, false) := by
  rcases hq : loadSession store now with ⟨a, b⟩
  rw [hq] at h
  simp only at h
  subst h
  constructor
  · unfold personalSignHandler
    rw [hq]
  · unfold ethSignHandler
    rw [hq]

/-- C7 witness: with an empty store (no session), both signing methods are
Unauthorized with no exchange. -/
theorem C7_sign_requires_session_witness :
    personalSignHandler ⟨"app", 1, none, none⟩ none 0 (some "0xmsg") none =
      (.error ⟨"Not connected. Call eth_requestAccounts first.", UNAUTHORIZED⟩,
       none, false) ∧
    ethSignHandler ⟨"app", 1, none, none⟩ none 0 (some "0xmsg") =
      (.error ⟨"Not connected. Call eth_requestAccounts first.", UNAUTHORIZED⟩,
       none, false) :=
  C7_sign_requires_session ⟨"app", 1, none, none⟩ none 0 (some "0xmsg") (some "0xmsg")
    rfl

/-- C8: a chain-switch or chain-add request for the configured chain id
succeeds as a no-op — same session storage, no notifications — and for any
other requested id is rejected (switch: 4901, add: 4200), likewise leaving
all state unchanged and emitting nothing. -/
theorem C8_chain_switch_single_chain (cfg : ProviderConfig) (param : Option String)
    (store : Option StoredRecord) :
    (parseIntHex (jsNullish param "0") = some (cfg.chainId : Int) →
      switchChainHandler cfg param store = (.ok (), store, []) ∧
      addChainHandler cfg param store = (.ok (), store, [])) ∧
    (parseIntHex (jsNullish param "0") ≠ some (cfg.chainId : Int) →
      switchChainHandler cfg param store =
        (.error ⟨"AmVault only supports chainId " ++ toString cfg.chainId,
          CHAIN_DISCONNECTED⟩, store, []) ∧
      addChainHandler cfg param store =
        (.error ⟨"AmVault only supports chainId " ++ toString cfg.chainId,
          UNSUPPORTED_METHOD⟩, store, [])) := by
  constructor
  · intro h
    unfold switchChainHandler addChainHandler
    rw [h]
    simp
  · intro h
    unfold switchChainHandler addChainHandler
    constructor
    · rw [if_pos h]
    · rw [if_pos h]

/-- C8 witness: with configured chain id 1, `0x1` is a stateless no-op
success and `0x2` a stateless rejection for both methods. -/
theorem C8_chain_switch_single_chain_witness :
    (switchChainHandler ⟨"app", 1, none, none⟩ (some "0x1") none =
      (.ok (), none, []) ∧
     addChainHandler ⟨"app", 1, none, none⟩ (some "0x1") none =
      (.ok (), none, [])) ∧
    (switchChainHandler ⟨"app", 1, none, none⟩ (some "0x2") none =
      (.error ⟨"AmVault only supports chainId 1", CHAIN_DISCONNECTED⟩, none, []) ∧
     addChainHandler ⟨"app", 1, none, none⟩ (some "0x2") none =
      (.error ⟨"AmVault only supports chainId 1", UNSUPPORTED_METHOD⟩, none, [])) :=
  ⟨(C8_chain_switch_single_chain ⟨"app", 1, none, none⟩ (some "0x1") none).1
      (by decide),
   (C8_chain_switch_single_chain ⟨"app", 1, none, none⟩ (some "0x2") none).2
      (by decide)⟩

theorem requestAccountsAfterReply_notOk (cfg : ProviderConfig)
    (recover : String → String → String) (sentMsg sentNonce : String)
    (resp : AuthResp) (store : Option StoredRecord) (now : Nat)
    (hok : resp.ok = false) :
    requestAccountsAfterReply cfg recover sentMsg sentNonce resp store now =
      (.error ⟨jsNullish resp.error "Sign-in rejected", USER_REJECTED⟩, store, []) := by
  unfold requestAccountsAfterReply
  rw [if_pos (by simp [hok])]

theorem requestAccountsAfterReply_sigFail (cfg : ProviderConfig)
    (recover : String → String → String) (sentMsg sentNonce : String)
    (resp : AuthResp) (store : Option StoredRecord) (now : Nat)
    (hok : resp.ok = true)
    (hv : verifyAuthResp recover sentMsg sentNonce cfg.chainId resp = .sigFail) :
    requestAccountsAfterReply cfg recover sentMsg sentNonce resp store now =
      (.error ⟨"Signature verification failed", INTERNAL⟩, store, []) := by
  unfold requestAccountsAfterReply
  rw [if_neg (by simp [hok]), hv]

theorem requestAccountsAfterReply_nonceFail (cfg : ProviderConfig)
    (recover : String → String → String) (sentMsg sentNonce : String)
    (resp : AuthResp) (store : Option StoredRecord) (now : Nat)
    (hok : resp.ok = true)
    (hv : verifyAuthResp recover sentMsg sentNonce cfg.chainId resp = .nonceFail) :
    requestAccountsAfterReply cfg recover sentMsg sentNonce resp store now =
      (.error ⟨"Nonce mismatch", INTERNAL⟩, store, []) := by
  unfold requestAccountsAfterReply
  rw [if_neg (by simp [hok]), hv]

theorem requestAccountsAfterReply_chainFail (cfg : ProviderConfig)
    (recover : String → String → String) (sentMsg sentNonce : String)
    (resp : AuthResp) (store : Option StoredRecord) (now : Nat)
    (hok : resp.ok = true)
    (hv : verifyAuthResp recover sentMsg sentNonce cfg.chainId resp = .chainFail) :
    requestAccountsAfterReply cfg recover sentMsg sentNonce resp store now =
      (.error ⟨"Wrong network: got " ++ toString resp.chainId ++ ", expected " ++
        toString cfg.chainId, CHAIN_DISCONNECTED⟩, store, []) := by
  unfold requestAccountsAfterReply
  rw [if_neg (by simp [hok]), hv]

/-- C3: during `eth_requestAccounts` reply verification, the verifier
recovers the signer from the echoed message when it is a non-blank string
(falling back to the originally sent message otherwise) and the signature,
compares case-insensitively against the claimed address, and runs the
checks in the order signature → nonce → chain id; the first failing check
determines the specific reported error (signature-integrity, nonce replay,
or network mismatch), and the three reported errors are pairwise
distinct — never a generic failure. -/
theorem C3_verifier_order_and_reasons (recover : String → String → String)
    (sentMsg sentNonce : String) (cfg : ProviderConfig) (resp : AuthResp)
    (store : Option StoredRecord) (now : Nat) (hok : resp.ok = true) :
    ((∀ m, resp.message = some m → m.trim ≠ "" → pickVerifyMessage sentMsg resp = m) ∧
     ((∀ m, resp.message = some m → m.trim = "") →
       pickVerifyMessage sentMsg resp = sentMsg)) ∧
    (verifyAuthResp recover sentMsg sentNonce cfg.chainId resp = .sigFail ↔
      jsToLower (recover (pickVerifyMessage sentMsg resp) resp.signature) ≠
        jsToLower resp.address) ∧
    (verifyAuthResp recover sentMsg sentNonce cfg.chainId resp = .nonceFail ↔
      jsToLower (recover (pickVerifyMessage sentMsg resp) resp.signature) =
        jsToLower resp.address ∧ resp.nonce ≠ some sentNonce) ∧
    (verifyAuthResp recover sentMsg sentNonce cfg.chainId resp = .chainFail ↔
      jsToLower (recover (pickVerifyMessage sentMsg resp) resp.signature) =
        jsToLower resp.address ∧ resp.nonce = some sentNonce ∧
        resp.chainId ≠ (cfg.chainId : Int)) ∧
    (verifyAuthResp recover sentMsg sentNonce cfg.chainId resp = .sigFail →
      requestAccountsAfterReply cfg recover sentMsg sentNonce resp store now =
        (.error ⟨"Signature verification failed", INTERNAL⟩, store, [])) ∧
    (verifyAuthResp recover sentMsg sentNonce cfg.chainId resp = .nonceFail →
      requestAccountsAfterReply cfg recover sentMsg sentNonce resp store now =
        (.error ⟨"Nonce mismatch", INTERNAL⟩, store, [])) ∧
    (verifyAuthResp recover sentMsg sentNonce cfg.chainId resp = .chainFail →
      requestAccountsAfterReply cfg recover sentMsg sentNonce resp store now =
        (.error ⟨"Wrong network: got " ++ toString resp.chainId ++ ", expected " ++
          toString cfg.chainId, CHAIN_DISCONNECTED⟩, store, [])) ∧
    ((⟨"Signature verification failed", INTERNAL⟩ : RpcErr) ≠
        ⟨"Nonce mismatch", INTERNAL⟩ ∧
     (⟨"Signature verification failed", INTERNAL⟩ : RpcErr).code ≠ CHAIN_DISCONNECTED ∧
     (⟨"Nonce mismatch", INTERNAL⟩ : RpcErr).code ≠ CHAIN_DISCONNECTED) := by
  refine ⟨⟨?_, ?_⟩, (verifyAuthResp_classify recover sentMsg sentNonce cfg.chainId resp).1,
    (verifyAuthResp_classify recover sentMsg sentNonce cfg.chainId resp).2.1,
    (verifyAuthResp_classify recover sentMsg sentNonce cfg.chainId resp).2.2.1,
    fun hv => requestAccountsAfterReply_sigFail cfg recover sentMsg sentNonce
      resp store now hok hv,
    fun hv => requestAccountsAfterReply_nonceFail cfg recover sentMsg sentNonce
      resp store now hok hv,
    fun hv => requestAccountsAfterReply_chainFail cfg recover sentMsg sentNonce
      resp store now hok hv,
    by decide, by decide, by decide⟩
  · intro m hm htrim
    unfold pickVerifyMessage
    rw [hm]
    simp [htrim]
  · intro hblank
    unfold pickVerifyMessage
    cases hm : resp.message with
    | none => rfl
    | some m => simp [hblank m hm]

/-- C3 witness: a concrete reply whose recovered address differs from the
claimed one is reported with the signature-integrity error. -/
theorem C3_verifier_order_and_reasons_witness :
    requestAccountsAfterReply ⟨"app", 1, none, none⟩ (fun _ _ => "0xZZ") "m" "n"
      { ok := true, error := none, address := "0xab", signature := "s",
        message := some "m", nonce := some "n", chainId := 1,
        ain := none, amid := none } none 0 =
      (.error ⟨"Signature verification failed", INTERNAL⟩, none, []) :=
  (C3_verifier_order_and_reasons (fun _ _ => "0xZZ") "m" "n" ⟨"app", 1, none, none⟩
    { ok := true, error := none, address := "0xab", signature := "s",
      message := some "m", nonce := some "n", chainId := 1,
      ain := none, amid := none } none 0 rfl).2.2.2.2.1 (by decide)

/-- C10: whenever verification of an authentication reply fails (signature,
nonce, or chain-id check), `eth_requestAccounts` rejects with no session
persisted, no notification emitted, and no address exposed: the session
store is returned exactly as it was. -/
theorem C10_verify_failure_preserves_state (cfg : ProviderConfig)
    (recover : String → String → String) (sentMsg sentNonce : String)
    (resp : AuthResp) (store : Option StoredRecord) (now : Nat)
    (hok : resp.ok = true)
    (hv : verifyAuthResp recover sentMsg sentNonce cfg.chainId resp ≠ .verified) :
    ∃ e : RpcErr, requestAccountsAfterReply cfg recover sentMsg sentNonce resp store now =
      (.error e, store, []) := by
  cases hvv : verifyAuthResp recover sentMsg sentNonce cfg.chainId resp with
  | sigFail =>
    exact ⟨_, requestAccountsAfterReply_sigFail cfg recover sentMsg sentNonce
      resp store now hok hvv⟩
  | nonceFail =>
    exact ⟨_, requestAccountsAfterReply_nonceFail cfg recover sentMsg sentNonce
      resp store now hok hvv⟩
  | chainFail =>
    exact ⟨_, requestAccountsAfterReply_chainFail cfg recover sentMsg sentNonce
      resp store now hok hvv⟩
  | verified => exact absurd hvv hv

/-- C10 witness: a wrong-chain reply leaves the (empty) store untouched,
emits nothing, and rejects. -/
theorem C10_verify_failure_preserves_state_witness :
    ∃ e : RpcErr, requestAccountsAfterReply ⟨"app", 1, none, none⟩
      (fun _ _ => "0xAB") "m" "n"
      { ok := true, error := none, address := "0xAB", signature := "s",
        message := some "m", nonce := some "n", chainId := 5,
        ain := none, amid := none } none 0 =
      (.error e, none, []) :=
  C10_verify_failure_preserves_state ⟨"app", 1, none, none⟩ (fun _ _ => "0xAB")
    "m" "n"
    { ok := true, error := none, address := "0xAB", signature := "s",
      message := some "m", nonce := some "n", chainId := 5,
      ain := none, amid := none } none 0 rfl (by decide)

/-- C9 counterexample: the claim says verification failures are reported as
a network-mismatch or unauthorized outcome according to which check failed,
but a nonce-check failure is reported with the internal code -32603, which
is neither 4901 (chain disconnected) nor 4100 (unauthorized). -/
theorem C9_counterexample :
    requestAccountsAfterReply ⟨"app", 1, none, none⟩ (fun _ _ => "0xAB") "m" "n"
      { ok := true, error := none, address := "0xab", signature := "s",
        message := some "m", nonce := some "other", chainId := 1,
        ain := none, amid := none } none 0 =
      (.error ⟨"Nonce mismatch", INTERNAL⟩, none, []) ∧
    INTERNAL ≠ CHAIN_DISCONNECTED ∧ INTERNAL ≠ UNAUTHORIZED := by
  refine ⟨?_, by decide, by decide⟩
  exact requestAccountsAfterReply_nonceFail ⟨"app", 1, none, none⟩ (fun _ _ => "0xAB")
    "m" "n"
    { ok := true, error := none, address := "0xab", signature := "s",
      message := some "m", nonce := some "other", chainId := 1,
      ain := none, amid := none } none 0 rfl (by decide)

/-- C9 (amended): failures surfaced through the method adapter are
classified as follows.  In the connect flow, an exchange failure whose
message matches the reject/cancel/blocked pattern (case-insensitive) is
user-rejection (4001) and any other message is internal (-32603); in the
sign and transaction flows the pattern is the narrower reject/cancel, so a
"Popup blocked" failure maps to internal there; a reply with ok = false is
user-rejection; and verification failures map signature and nonce to
internal (-32603) and chain-id to network-mismatch (4901) — none maps to
unauthorized. -/
theorem C9_amended_failure_classification :
    (∀ m, (classifyConnectFailure m).code = USER_REJECTED ↔
      matchesRejectCancelBlocked m = true) ∧
    (∀ m, matchesRejectCancelBlocked m = false →
      classifyConnectFailure m = ⟨m, INTERNAL⟩) ∧
    (∀ m, (classifySignFailure m).code = USER_REJECTED ↔
      matchesRejectCancel m = true) ∧
    (classifySignFailure "Popup blocked").code = INTERNAL ∧
    (classifyConnectFailure "Popup blocked").code = USER_REJECTED ∧
    (∀ cfg recover sentMsg sentNonce resp store now, resp.ok = false →
      (requestAccountsAfterReply cfg recover sentMsg sentNonce resp store now).1 =
        .error ⟨jsNullish resp.error "Sign-in rejected", USER_REJECTED⟩) ∧
    (∀ (cfg : ProviderConfig) recover sentMsg sentNonce (resp : AuthResp) store now,
      resp.ok = true →
      (verifyAuthResp recover sentMsg sentNonce cfg.chainId resp = .sigFail →
        ∃ e, (requestAccountsAfterReply cfg recover sentMsg sentNonce resp store now).1 =
          .error e ∧ e.code = INTERNAL) ∧
      (verifyAuthResp recover sentMsg sentNonce cfg.chainId resp = .nonceFail →
        ∃ e, (requestAccountsAfterReply cfg recover sentMsg sentNonce resp store now).1 =
          .error e ∧ e.code = INTERNAL) ∧
      (verifyAuthResp recover sentMsg sentNonce cfg.chainId resp = .chainFail →
        ∃ e, (requestAccountsAfterReply cfg recover sentMsg sentNonce resp store now).1 =
          .error e ∧ e.code = CHAIN_DISCONNECTED)) := by
  refine ⟨?_, ?_, ?_, by decide, by decide, ?_, ?_⟩
  · intro m
    unfold classifyConnectFailure
    by_cases h : matchesRejectCancelBlocked m
    · simp [h, USER_REJECTED]
    · simp [h, USER_REJECTED, INTERNAL]
  · intro m h
    unfold classifyConnectFailure
    simp [h]
  · intro m
    unfold classifySignFailure
    by_cases h : matchesRejectCancel m
    · simp [h, USER_REJECTED]
    · simp [h, USER_REJECTED, INTERNAL]
  · intro cfg recover sentMsg sentNonce resp store now hok
    rw [requestAccountsAfterReply_notOk cfg recover sentMsg sentNonce resp store now hok]
  · intro cfg recover sentMsg sentNonce resp store now hok
    refine ⟨fun hv => ?_, fun hv => ?_, fun hv => ?_⟩
    · rw [requestAccountsAfterReply_sigFail cfg recover sentMsg sentNonce
        resp store now hok hv]
      exact ⟨_, rfl, rfl⟩
    · rw [requestAccountsAfterReply_nonceFail cfg recover sentMsg sentNonce
        resp store now hok hv]
      exact ⟨_, rfl, rfl⟩
    · rw [requestAccountsAfterReply_chainFail cfg recover sentMsg sentNonce
        resp store now hok hv]
      exact ⟨_, rfl, rfl⟩

/-- C9 amended witness: "User rejected" is user-rejection in both flows;
"boring failure" is internal; a not-ok reply is user-rejection. -/
theorem C9_amended_failure_classification_witness :
    ((classifyConnectFailure "User rejected").code = USER_REJECTED ↔
      matchesRejectCancelBlocked "User rejected" = true) ∧
    classifyConnectFailure "boring failure" = ⟨"boring failure", INTERNAL⟩ ∧
    (requestAccountsAfterReply ⟨"app", 1, none, none⟩ (fun _ _ => "x") "m" "n"
      { ok := false, error := some "nope", address := "0xab", signature := "s",
        message := none, nonce := none, chainId := 1, ain := none, amid := none }
      none 0).1 =
      .error ⟨jsNullish (some "nope") "Sign-in rejected", USER_REJECTED⟩ :=
  ⟨C9_amended_failure_classification.1 "User rejected",
   C9_amended_failure_classification.2.1 "boring failure" (by decide),
   C9_amended_failure_classification.2.2.2.2.2.1 ⟨"app", 1, none, none⟩
     (fun _ _ => "x") "m" "n"
     { ok := false, error := some "nope", address := "0xab", signature := "s",
       message := none, nonce := none, chainId := 1, ain := none, amid := none }
     none 0 rfl⟩

/-! ## URL-safe alphabet facts for `base64url` -/

/-- The characters that may appear in a `base64url` output. -/
def base64UrlAlphabet : List Char :=
  "ABCDEFGHIJKLMNOPQRSTUVWXYZabcdefghijklmnopqrstuvwxyz0123456789-_".toList

theorem b64c_mem (n : Nat) : b64c n ∈ base64Alphabet := by
  unfold b64c
  rw [List.getD_eq_getElem?_getD]
  by_cases h : n < base64Alphabet.length
  · rw [List.getElem?_eq_getElem h]
    exact List.getElem_mem h
  · rw [List.getElem?_eq_none (Nat.le_of_not_lt h)]
    decide

/-- Every `base64Chunks` output splits into a body of alphabet characters
followed by the final chunk's padding. -/
theorem base64Chunks_decomp (bs : List Nat) :
    ∃ body pad, base64Chunks bs = body ++ pad ∧
      (∀ c ∈ body, c ∈ base64Alphabet) ∧ (∀ c ∈ pad, c = '=') := by
  induction bs using base64Chunks.induct with
  | case1 => exact ⟨[], [], rfl, by simp, by simp⟩
  | case2 a =>
    refine ⟨[b64c (a / 4), b64c (a % 4 * 16)], ['=', '='], rfl, ?_, by simp⟩
    intro c hc
    simp only [List.mem_cons, List.not_mem_nil, or_false] at hc
    rcases hc with h | h <;> (subst h; exact b64c_mem _)
  | case3 a b =>
    refine ⟨[b64c (a / 4), b64c (a % 4 * 16 + b / 16), b64c (b % 16 * 4)],
      ['='], rfl, ?_, by simp⟩
    intro c hc
    simp only [List.mem_cons, List.not_mem_nil, or_false] at hc
    rcases hc with h | h | h <;> (subst h; exact b64c_mem _)
  | case4 a b c rest ih =>
    obtain ⟨body, pad, he, hb, hp⟩ := ih
    refine ⟨b64c (a / 4) :: b64c (a % 4 * 16 + b / 16) ::
      b64c (b % 16 * 4 + c / 64) :: b64c (c % 64) :: body, pad, ?_, ?_, hp⟩
    · show base64Chunks (a :: b :: c :: rest) = _
      rw [base64Chunks, he]
      rfl
    · intro x hx
      simp only [List.mem_cons] at hx
      rcases hx with h | h | h | h | h
      · subst h; exact b64c_mem _
      · subst h; exact b64c_mem _
      · subst h; exact b64c_mem _
      · subst h; exact b64c_mem _
      · exact hb x h

theorem dropWhile_all_false {α : Type} (p : α → Bool) :
    ∀ l : List α, (∀ x ∈ l, p x = false) → l.dropWhile p = l
  | [], _ => rfl
  | x :: t, h => by
    have hx := h x (by simp)
    simp [List.dropWhile, hx]

theorem stripTrailingEq_append (xs ys : List Char)
    (hx : ∀ c ∈ xs, c ≠ '=') :
    stripTrailingEq (xs ++ ys) = xs ++ stripTrailingEq ys := by
  unfold stripTrailingEq
  rw [List.reverse_append, List.dropWhile_append]
  by_cases h : (List.dropWhile (fun c => c = '=') ys.reverse).isEmpty
  · rw [if_pos h]
    have hempty : List.dropWhile (fun c => decide (c = '=')) ys.reverse = [] := by
      simpa [List.isEmpty_iff] using h
    rw [hempty]
    have hall : ∀ c ∈ xs.reverse, (fun c => decide (c = '=')) c = false := by
      intro c hc
      simp only [decide_eq_false_iff_not]
      exact hx c (List.mem_reverse.mp hc)
    rw [dropWhile_all_false _ xs.reverse hall, List.reverse_reverse]
    simp
  · rw [if_neg h]
    rw [List.reverse_append, List.reverse_reverse]

theorem stripTrailingEq_all_eq (l : List Char) (h : ∀ c ∈ l, c = '=') :
    stripTrailingEq l = [] := by
  unfold stripTrailingEq
  have : List.dropWhile (fun c => decide (c = '=')) l.reverse = [] := by
    rw [List.dropWhile_eq_nil_iff]
    intro x hx
    simp [h x (List.mem_reverse.mp hx)]
  rw [this]
  rfl

theorem urlSafeChar_mem : ∀ c ∈ base64Alphabet, urlSafeChar c ∈ base64UrlAlphabet := by
  decide

theorem urlAlphabet_no_pad : ∀ c ∈ base64UrlAlphabet, c ≠ '=' := by decide

/-- Every character of a `base64url` output is in the URL-safe alphabet:
no `+`, no `/`, and no `=` padding survive the encoding. -/
theorem base64url_chars (s : String) :
    ∀ c ∈ (base64url s).toList, c ∈ base64UrlAlphabet := by
  obtain ⟨body, pad, he, hb, hp⟩ := base64Chunks_decomp (utf8Bytes s)
  intro c hc
  have hlist : (base64url s).toList =
      stripTrailingEq ((base64Chunks (utf8Bytes s)).map urlSafeChar) := rfl
  rw [hlist, he, List.map_append] at hc
  have hbody : ∀ x ∈ body.map urlSafeChar, x ∈ base64UrlAlphabet := by
    intro x hx
    obtain ⟨y, hy, hxy⟩ := List.mem_map.mp hx
    subst hxy
    exact urlSafeChar_mem y (hb y hy)
  have hbody' : ∀ x ∈ body.map urlSafeChar, x ≠ '=' := by
    intro x hx
    exact urlAlphabet_no_pad x (hbody x hx)
  have hpad : ∀ x ∈ pad.map urlSafeChar, x = '=' := by
    intro x hx
    obtain ⟨y, hy, hxy⟩ := List.mem_map.mp hx
    subst hxy
    rw [hp y hy]
    rfl
  rw [stripTrailingEq_append _ _ hbody', stripTrailingEq_all_eq _ hpad,
    List.append_nil] at hc
  exact hbody c hc

/-- C6: the navigation target is built deterministically from the request
fields as query parameters `method`, `app`, `chainId`, `origin`, `nonce`,
`redirect=postmessage`, plus `payload` as URL-safe base64 of the serialized
payload when one is present (the encoding uses only URL-safe characters:
`+`/`/` are replaced by `-`/`_` and `=` padding is stripped); a
sign-message request is transmitted with the transport method tag
“signin” — the full parameter list coincides with that of a sign-in
request — while the client retains the sign-message semantic tag, so a
matching authentication reply still settles the exchange successfully. -/
theorem C6_nav_target_and_transport (r : PopupRequest) :
    (r.method = .sign_message →
      transportMethod r.method = "signin" ∧
      buildNavParams r = buildNavParams { r with method := .signin }) ∧
    (("method", transportMethod r.method) ∈ buildNavParams r ∧
     ("app", r.app) ∈ buildNavParams r ∧
     ("chainId", toString r.chainId) ∈ buildNavParams r ∧
     ("origin", r.origin) ∈ buildNavParams r ∧
     ("nonce", r.nonce) ∈ buildNavParams r ∧
     ("redirect", "postmessage") ∈ buildNavParams r) ∧
    (∀ p, r.payload = some p → ("payload", base64url p) ∈ buildNavParams r) ∧
    (∀ s : String, ∀ c ∈ (base64url s).toList, c ∈ base64UrlAlphabet) ∧
    (∀ (cfg : ExchangeCfg) (e : Option String), cfg.method = .sign_message →
      (stepExchange cfg initExchange
        (.msg cfg.amvaultOrigin cfg.popupRef (some ⟨"amvault:auth", e⟩))).result =
        some (.ok ⟨"amvault:auth", e⟩)) := by
  refine ⟨?_, ?_, ?_, fun s => base64url_chars s, ?_⟩
  · intro hm
    exact ⟨by rw [hm]; rfl, by unfold buildNavParams; rw [hm]; rfl⟩
  · unfold buildNavParams
    cases r.payload <;> simp
  · intro p hp
    unfold buildNavParams
    rw [hp]
    simp
  · intro cfg e hm
    rw [stepExchange_msg]
    rw [if_pos (show initExchange.msgListenerOn = true from rfl)]
    unfold onMsg
    rw [if_neg (by simp)]
    rw [if_neg (by simp)]
    show (deliverData cfg initExchange ⟨"amvault:auth", e⟩).result =
      some (.ok ⟨"amvault:auth", e⟩)
    unfold deliverData
    rw [if_pos ⟨Or.inr hm, rfl⟩]
    rfl

/-- C6 witness: a concrete sign-message request with a payload shares its
parameter list with the corresponding sign-in request, carries the URL-safe
payload parameter, and its auth reply settles the exchange. -/
theorem C6_nav_target_and_transport_witness :
    (transportMethod Method.sign_message = "signin" ∧
     buildNavParams ⟨.sign_message, "app", 1, "https://dapp.example", "n1", some "{}"⟩ =
       buildNavParams ⟨.signin, "app", 1, "https://dapp.example", "n1", some "{}"⟩) ∧
    ("payload", base64url "{}") ∈
      buildNavParams ⟨.sign_message, "app", 1, "https://dapp.example", "n1", some "{}"⟩ ∧
    (stepExchange ⟨.sign_message, "https://amvault.example", 7⟩ initExchange
      (.msg "https://amvault.example" 7 (some ⟨"amvault:auth", none⟩))).result =
      some (.ok ⟨"amvault:auth", none⟩) :=
  ⟨(C6_nav_target_and_transport
      ⟨.sign_message, "app", 1, "https://dapp.example", "n1", some "{}"⟩).1 rfl,
   (C6_nav_target_and_transport
      ⟨.sign_message, "app", 1, "https://dapp.example", "n1", some "{}"⟩).2.2.1 "{}" rfl,
   (C6_nav_target_and_transport
      ⟨.sign_message, "app", 1, "https://dapp.example", "n1", some "{}"⟩).2.2.2.2
      ⟨.sign_message, "https://amvault.example", 7⟩ none rfl⟩

end Amvault
